import Mathlib

set_option linter.unusedVariables false

namespace DECaxp

/-- Length of the Mbox Load Queue and Store Queue.  Modelled from the spec:
the defining header (AXP_21264_Mbox.h) is not among the sources; the spec
says queues of length AXP_MBOX_QUEUE_LEN, typically 32 loads and 32 stores. -/
def AXP_MBOX_QUEUE_LEN : Nat := 32

/-- Number of Dcache sets.  Modelled from the spec: the defining header is not
among the sources; the spec describes a two-way set-associative Dcache with
AXP_CACHE_ENTRIES sets (64 KB, 64-byte lines on the 21264 gives 512 sets).
None of the proved claims depends on the exact value, only on it being
positive. -/
def AXP_CACHE_ENTRIES : Nat := 512

/-- Associativity of the Dcache (two ways).  Modelled from the spec. -/
def AXP_2_WAY_CACHE : Nat := 2

/-- Bytes per Dcache data block.  Modelled from the spec (64 B typical). -/
def AXP_DCACHE_DATA_LEN : Nat := 64

/-- Number of DTB entries; value from AXP_TB_LEN in the CPU definitions
header that is among the sources. -/
def AXP_TB_LEN : Nat := 128

/-- Number of MAF slots.  Modelled from the spec: header missing; the 21264
MAF has 8 entries.  No proved claim depends on the exact value. -/
def AXP_21264_MAF_LEN : Nat := 8

/-- Encoding of kernel mode for dtbAltMode.alt_mode.  Modelled from the spec:
header missing; kernel is the architectural mode 0. -/
def AXP_MBOX_ALTMODE_KERNEL : Nat := 0

/-- HW_LD length field value meaning longword.  Modelled from the spec: header
missing.  The C condition `if (lqEntry->instr->len_stall = AXP_HW_LD_LONGWORD)`
is an assignment, so the branch taken depends only on whether this constant is
nonzero; no proved claim depends on it. -/
def AXP_HW_LD_LONGWORD : Nat := 1

/-- States of an LQ/SQ entry (enum from the missing Mbox header; the
constructor names are exactly the ones used by the source). -/
inductive QState
  | QNotInUse
  | Assigned
  | Initial
  | LQReadPending
  | LQComplete
  | LQReadable
  | SQWritePending
  | SQReady
  | SQComplete
  deriving DecidableEq, Repr

/-- States of a decoded instruction (from the spec's instruction descriptor). -/
inductive InstrState
  | Executing
  | WaitingForCompletion
  | WaitingRetirement
  deriving DecidableEq, Repr

/-- Load/store opcodes that appear in the Mbox and Ebox sources.  The numeric
encodings live in a header that is not among the sources; only the identity of
each opcode matters to the translated functions, so an inductive suffices. -/
inductive Opcode
  | LDA
  | LDAH
  | LDBU
  | LDQ_U
  | LDW_U
  | LDF
  | LDG
  | LDS
  | LDT
  | LDL
  | LDQ
  | LDL_L
  | LDQ_L
  | HW_LD
  | STL_C
  | STQ_C
  | OTHER
  deriving DecidableEq, Repr

/-- MAF entry kinds (MAFNotInUse from Mbox_Init, LDx from TryCaches). -/
inductive MAFType
  | MAFNotInUse
  | LDx
  | STx
  deriving DecidableEq, Repr

/-- System command codes for a MAF entry; only NOPcmd appears in the source. -/
inductive SysCmd
  | NOPcmd
  | OtherCmd
  deriving DecidableEq, Repr

/-- System data responses for a MAF entry; only NOPsysdc appears. -/
inductive SysDC
  | NOPsysdc
  | OtherSysdc
  deriving DecidableEq, Repr

/-- MOESI-style state of a Dcache line; the source only ever names Invalid. -/
inductive CacheLineState
  | Invalid
  | Clean
  | Dirty
  | Shared
  | Modified
  deriving DecidableEq, Repr

/-- Exception indicator returned by the Ebox instruction functions; the
source only ever returns NoException from the load/store functions. -/
inductive AXP_EXCEPTIONS
  | NoException
  | FaultDetected
  deriving DecidableEq, Repr

/-- Decoded instruction record (AXP_INSTRUCTION).  Machine integers are
modelled as Nat; 64-bit overflow is applied explicitly where the C wraps. -/
structure AXP_INSTRUCTION where
  opcode : Opcode
  uniqueID : Nat
  pc : Nat
  aDest : Nat
  destv : Nat
  src1v : Nat
  src2v : Nat
  displacement : Nat
  len_stall : Nat
  lockFlagPending : Bool
  lockPhysAddrPending : Nat
  lockVirtAddrPending : Nat
  clearLockPending : Bool
  state : InstrState
  deriving DecidableEq, Repr

/-- LQ/SQ entry (AXP_MBOX_QUEUE).  The C entry holds a pointer to the
instruction; the record embeds the pointed-to instruction by value. -/
structure AXP_MBOX_QUEUE where
  state : QState
  value : Nat
  virtAddress : Nat
  physAddress : Nat
  len : Nat
  instr : AXP_INSTRUCTION
  IOflag : Bool
  lockCond : Bool
  deriving DecidableEq, Repr

/-- One Dcache line (data block, physical tag and status bits). -/
structure DcacheLine where
  data : List Nat
  physTag : Nat
  valid : Bool
  dirty : Bool
  shared : Bool
  modified : Bool
  set_0_1 : Bool
  locked : Bool
  state : CacheLineState
  deriving DecidableEq, Repr

/-- One duplicate-tag (dtag) entry. -/
structure DtagEntry where
  physTag : Nat
  ctagIndex : Nat
  ctagSet : Nat
  valid : Bool
  deriving DecidableEq, Repr

/-- One DTB translation entry, with the fields Mbox_Init writes. -/
structure DtbEntry where
  virtAddr : Nat
  physAddr : Nat
  matchMask : Nat
  keepMask : Nat
  kre : Nat
  ere : Nat
  sre : Nat
  ure : Nat
  kwe : Nat
  ewe : Nat
  swe : Nat
  uwe : Nat
  faultOnRead : Nat
  faultOnWrite : Nat
  faultOnExecute : Nat
  res_1 : Nat
  asn : Nat
  _asm : Bool
  valid : Bool
  deriving DecidableEq, Repr

/-- One MAF slot. -/
structure MafEntry where
  type : MAFType
  rq : SysCmd
  rsp : SysDC
  pa : Nat
  complete : Bool
  deriving DecidableEq, Repr

/-- DTB tag array write IPR (dtbTag0/1). -/
structure DtbTagIpr where
  res_1 : Nat
  va : Nat
  res_2 : Nat
  deriving DecidableEq, Repr

/-- DTB PTE array write IPR (dtbPte0/1). -/
structure DtbPteIpr where
  res_1 : Nat
  pa : Nat
  res_2 : Nat
  uwe : Nat
  swe : Nat
  ewe : Nat
  kwe : Nat
  ure : Nat
  sre : Nat
  ere : Nat
  kre : Nat
  res_3 : Nat
  gh : Nat
  _asm : Nat
  res_4 : Nat
  fow : Nat
  _for : Nat
  res_5 : Nat
  deriving DecidableEq, Repr

/-- DTB alternate processor mode IPR. -/
structure DtbAltModeIpr where
  alt_mode : Nat
  res : Nat
  deriving DecidableEq, Repr

/-- DTB invalidate single IPR (dtbIs0/1). -/
structure DtbIsIpr where
  res_1 : Nat
  inval_itb : Nat
  res_2 : Nat
  deriving DecidableEq, Repr

/-- DTB address space number IPR (dtbAsn0/1). -/
structure DtbAsnIpr where
  res_1 : Nat
  asn : Nat
  res_2 : Nat
  deriving DecidableEq, Repr

/-- Memory management status IPR (mmStat). -/
structure MmStatIpr where
  res : Nat
  dc_tag_perr : Nat
  opcodes : Nat
  fow : Nat
  _for : Nat
  acv : Nat
  wr : Nat
  deriving DecidableEq, Repr

/-- Mbox control IPR (mCtl). -/
structure MCtlIpr where
  res_1 : Nat
  spe : Nat
  res_2 : Nat
  deriving DecidableEq, Repr

/-- Dcache control IPR (dcCtl). -/
structure DcCtlIpr where
  dcdat_err_en : Nat
  dctag_par_en : Nat
  f_bad_decc : Nat
  f_bad_tpar : Nat
  f_hit : Nat
  set_en : Nat
  deriving DecidableEq, Repr

/-- Dcache status IPR (dcStat).  The C initializer writes tperr_p1 twice and
never writes tperr_p2; the model mirrors that by leaving tperr_p2 unchanged. -/
structure DcStatIpr where
  res : Nat
  seo : Nat
  ecc_err_ld : Nat
  ecc_err_st : Nat
  tperr_p1 : Nat
  tperr_p2 : Nat
  deriving DecidableEq, Repr

/-- Virtual address control IPR of the Ebox; only b_endian is read by the
translated load/store functions. -/
structure VaCtlIpr where
  b_endian : Nat
  deriving DecidableEq, Repr

/-- The slice of the AXP_21264_CPU aggregate that the translated functions
touch.  Fixed-size C arrays become lists whose length equals the array
length in every reachable state. -/
structure AXP_21264_CPU where
  dCache : List (List DcacheLine)
  dtag : List (List DtagEntry)
  lq : List AXP_MBOX_QUEUE
  lqNext : Nat
  sq : List AXP_MBOX_QUEUE
  sqNext : Nat
  dtb : List DtbEntry
  nextDTB : Nat
  maf : List MafEntry
  tbMissOutstanding : Bool
  dtbTag0 : DtbTagIpr
  dtbTag1 : DtbTagIpr
  dtbPte0 : DtbPteIpr
  dtbPte1 : DtbPteIpr
  dtbAltMode : DtbAltModeIpr
  dtbIs0 : DtbIsIpr
  dtbIs1 : DtbIsIpr
  dtbAsn0 : DtbAsnIpr
  dtbAsn1 : DtbAsnIpr
  mmStat : MmStatIpr
  mCtl : MCtlIpr
  dcCtl : DcCtlIpr
  dcStat : DcStatIpr
  lockFlag : Bool
  vaCtl : VaCtlIpr

/-- Index-aware map, the shape of a C `for (ii = k; ...)` loop that rewrites
selected array cells in place. -/
def mapWithIndex {A : Type} (f : Nat -> A -> A) : Nat -> List A -> List A
  | _, [] => []
  | k, a :: t => f k a :: mapWithIndex f (k + 1) t

/-- Overwrite the state field of queue slot i, as in cpu->lq[i].state = st. -/
def setQState (l : List AXP_MBOX_QUEUE) (i : Nat) (st : QState) :
    List AXP_MBOX_QUEUE :=
  mapWithIndex (fun j e => if j = i then { e with state := st } else e) 0 l

/-- AXP_21264_Mbox_GetLQSlot: hand out the next LQ slot if one is free,
marking it Assigned and bumping lqNext; otherwise return the sentinel
AXP_MBOX_QUEUE_LEN.  The pthread mutex acquire/release around the body is
dropped: the function is modelled as the atomic state transformer the lock
makes it. -/
def AXP_21264_Mbox_GetLQSlot (cpu : AXP_21264_CPU) : Nat × AXP_21264_CPU :=
  if cpu.lqNext < AXP_MBOX_QUEUE_LEN then
    (cpu.lqNext,
     { cpu with
        lq := setQState cpu.lq cpu.lqNext QState.Assigned,
        lqNext := cpu.lqNext + 1 })
  else
    (AXP_MBOX_QUEUE_LEN, cpu)

/-- AXP_21264_Mbox_GetSQSlot: SQ twin of GetLQSlot. -/
def AXP_21264_Mbox_GetSQSlot (cpu : AXP_21264_CPU) : Nat × AXP_21264_CPU :=
  if cpu.sqNext < AXP_MBOX_QUEUE_LEN then
    (cpu.sqNext,
     { cpu with
        sq := setQState cpu.sq cpu.sqNext QState.Assigned,
        sqNext := cpu.sqNext + 1 })
  else
    (AXP_MBOX_QUEUE_LEN, cpu)

/-- External effects the Mbox requests from its collaborators, in call order.
Each constructor records the arguments of one call made by the translated
functions (the NULL data pointer and trailing false/false flags of Add_MAF,
Add_IOWB and Ibox_Event are kept where they are informative). -/
inductive MboxAction
  | probeDcache (va pa : Nat)
  | probeBcache (pa : Nat)
  | copyBcacheToDcache (va pa : Nat)
  | dcacheRead (va pa len : Nat)
  | addMAF (kind : MAFType) (pa slot len : Nat)
  | addIOWB (pa slot len : Nat)
  | iboxEvent (fault pc va : Nat) (opcode : Opcode) (aDest : Nat) (f1 f2 : Bool)
  deriving DecidableEq, Repr

/-- Oracles for the cache hierarchy and the DTB, the collaborators the Mbox
consumes (AXP_Dcache_Status, AXP_21264_Bcache_Status, AXP_DcacheRead,
AXP_va2pa, AXP_21264_IS_IO_ADDR).  The C status calls are only ever compared
against AXP_21264_CACHE_HIT, so a hit flag is recorded; AXP_DcacheRead writes
the value it read into destv, recorded as dcacheReadVal; AXP_va2pa returns
the physical address (0 meaning fault) and writes the fault code. -/
structure MboxEnv where
  dcacheHit : Nat -> Nat -> Bool
  bcacheHit : Nat -> Bool
  dcacheReadVal : Nat -> Nat -> Nat -> Nat
  va2pa : Nat -> Nat -> Nat × Nat
  isIOAddrCheck : Nat -> Bool

/-- Forwarding predicate of the SQ scan loop in AXP_21264_Mbox_TryCaches:
the outer if requires sq[ii].state in {Initial, SQWritePending, SQComplete};
the inner if requires address equality, lq.len <= sq[ii].len, and
lq.instr.uniqueID < sq[ii].instr.uniqueID, exactly as written in the C. -/
def fwdMatch (lq s : AXP_MBOX_QUEUE) : Bool :=
  (decide (s.state = QState.Initial)
      || decide (s.state = QState.SQWritePending)
      || decide (s.state = QState.SQComplete))
    && decide (lq.virtAddress = s.virtAddress)
    && decide (lq.len ≤ s.len)
    && decide (lq.instr.uniqueID < s.instr.uniqueID)

/-- One iteration of the SQ scan loop at index ii.  The accumulator is the
pair (olderStore, nextOlderStore) folded into an Option that also carries
the entry at nextOlderStore (the array is not mutated during the scan, so
carrying the entry equals re-indexing the array as the C does).  When the
entry qualifies: with an occupied accumulator the index moves exactly when
the new entry's uniqueID is greater, and with an empty accumulator the index
and the olderStore flag are set. -/
def scanStep (lq s : AXP_MBOX_QUEUE) (ii : Nat) :
    Option (Nat × AXP_MBOX_QUEUE) -> Option (Nat × AXP_MBOX_QUEUE)
  | none => if fwdMatch lq s then some (ii, s) else none
  | some (j, sj) =>
    if fwdMatch lq s then
      if sj.instr.uniqueID < s.instr.uniqueID then some (ii, s)
      else some (j, sj)
    else some (j, sj)

/-- The SQ scan loop from index ii onward. -/
def scanFrom (lq : AXP_MBOX_QUEUE) :
    Nat -> List AXP_MBOX_QUEUE -> Option (Nat × AXP_MBOX_QUEUE) ->
    Option (Nat × AXP_MBOX_QUEUE)
  | _, [], acc => acc
  | ii, s :: rest, acc => scanFrom lq (ii + 1) rest (scanStep lq s ii acc)

/-- The SQ scan of AXP_21264_Mbox_TryCaches over all AXP_MBOX_QUEUE_LEN
entries: none when olderStore stays false, otherwise the final
nextOlderStore index and its entry. -/
def scanSQ (lq : AXP_MBOX_QUEUE) (sq : List AXP_MBOX_QUEUE) :
    Option (Nat × AXP_MBOX_QUEUE) :=
  scanFrom lq 0 sq none

/-- Little-endian read of n bytes of emulator-process memory starting at
addr, as the C pointer dereferences do on a little-endian host. -/
def readBytesLE (mem : Nat -> Nat) : Nat -> Nat -> Nat
  | _, 0 => 0
  | a, n + 1 => mem a % 2 ^ 8 + 2 ^ 8 * readBytesLE mem (a + 1) n

/-- Value the forwarded-store switch of AXP_21264_Mbox_TryCaches leaves in
destv (destv is zeroed first).  len 1 copies the low byte of the value field
(the C takes the address of the field); len 2, 4 and 8 cast the value field
itself to a pointer and dereference it, reading emulator-process memory at
address value; any other len leaves destv zero. -/
def tryCachesForwardValue (mem : Nat -> Nat) (s : AXP_MBOX_QUEUE)
    (len : Nat) : Nat :=
  match len with
  | 1 => s.value % 2 ^ 8
  | 2 => readBytesLE mem s.value 2
  | 4 => readBytesLE mem s.value 4
  | 8 => readBytesLE mem s.value 8
  | _ => 0

/-- Tail of the Dcache-hit path of AXP_21264_Mbox_TryCaches: destv is zeroed
and AXP_DcacheRead overwrites it with the len-byte value it read, then the
entry state becomes LQComplete. -/
def dcacheReadFinish (env : MboxEnv) (e : AXP_MBOX_QUEUE)
    (tr : List MboxAction) : AXP_MBOX_QUEUE × List MboxAction :=
  ({ e with
      instr := { e.instr with
        destv := env.dcacheReadVal e.virtAddress e.physAddress e.len },
      state := QState.LQComplete },
   tr ++ [MboxAction.dcacheRead e.virtAddress e.physAddress e.len])

/-- AXP_21264_Mbox_TryCaches: scan the SQ for a forwarding source; if none,
probe the Dcache, then the Bcache, filling the Dcache on a Bcache hit and
posting a MAF entry on a double miss; if a source was found, copy from the
store per the len switch.  Returns the updated LQ entry and the calls made. -/
def AXP_21264_Mbox_TryCaches (env : MboxEnv) (mem : Nat -> Nat)
    (sq : List AXP_MBOX_QUEUE) (entry : Nat) (lqEntry : AXP_MBOX_QUEUE) :
    AXP_MBOX_QUEUE × List MboxAction :=
  match scanSQ lqEntry sq with
  | none =>
    if env.dcacheHit lqEntry.virtAddress lqEntry.physAddress then
      dcacheReadFinish env lqEntry
        [MboxAction.probeDcache lqEntry.virtAddress lqEntry.physAddress]
    else if env.bcacheHit lqEntry.physAddress then
      dcacheReadFinish env lqEntry
        [MboxAction.probeDcache lqEntry.virtAddress lqEntry.physAddress,
         MboxAction.probeBcache lqEntry.physAddress,
         MboxAction.copyBcacheToDcache lqEntry.virtAddress lqEntry.physAddress]
    else
      (lqEntry,
       [MboxAction.probeDcache lqEntry.virtAddress lqEntry.physAddress,
        MboxAction.probeBcache lqEntry.physAddress,
        MboxAction.addMAF MAFType.LDx lqEntry.physAddress entry lqEntry.len])
  | some (_, s) =>
    ({ lqEntry with
        instr := { lqEntry.instr with
          destv := tryCachesForwardValue mem s lqEntry.len },
        state := QState.LQComplete },
     [])

/-- Length switch at the top of AXP_21264_Mbox_LQ_Init.  The HW_LD case
faithfully renders the C assignment-in-condition: len_stall is overwritten
with AXP_HW_LD_LONGWORD and the branch tests that constant for truth. -/
def lqInitSetLen (e : AXP_MBOX_QUEUE) : AXP_MBOX_QUEUE :=
  match e.instr.opcode with
  | Opcode.LDBU => { e with len := 1 }
  | Opcode.LDW_U => { e with len := 2 }
  | Opcode.LDF => { e with len := 4 }
  | Opcode.LDS => { e with len := 4 }
  | Opcode.LDL => { e with len := 4 }
  | Opcode.LDL_L => { e with len := 4 }
  | Opcode.LDA => { e with len := 8 }
  | Opcode.LDAH => { e with len := 8 }
  | Opcode.LDQ_U => { e with len := 8 }
  | Opcode.LDG => { e with len := 8 }
  | Opcode.LDT => { e with len := 8 }
  | Opcode.LDQ => { e with len := 8 }
  | Opcode.LDQ_L => { e with len := 8 }
  | Opcode.HW_LD =>
    if AXP_HW_LD_LONGWORD ≠ 0 then
      { e with instr := { e.instr with len_stall := AXP_HW_LD_LONGWORD },
               len := 4 }
    else
      { e with instr := { e.instr with len_stall := AXP_HW_LD_LONGWORD },
               len := 8 }
  | _ => e

/-- AXP_21264_Mbox_LQ_Init: compute len from the opcode, translate the
virtual address via AXP_va2pa, then either (memory load) call TryCaches,
(I/O load) post an IOWB entry, or (translation fault, physical address 0)
raise an Ibox event with the fault, PC, virtual address, opcode and aDest. -/
def AXP_21264_Mbox_LQ_Init (env : MboxEnv) (mem : Nat -> Nat)
    (sq : List AXP_MBOX_QUEUE) (entry : Nat) (e : AXP_MBOX_QUEUE) :
    AXP_MBOX_QUEUE × List MboxAction :=
  let e1 := lqInitSetLen e
  let pa := (env.va2pa e1.virtAddress e1.instr.pc).1
  let fault := (env.va2pa e1.virtAddress e1.instr.pc).2
  let e2 := { e1 with physAddress := pa }
  if pa ≠ 0 then
    let e3 := { e2 with IOflag := env.isIOAddrCheck pa,
                        state := QState.LQReadPending }
    if e3.IOflag = false then
      AXP_21264_Mbox_TryCaches env mem sq entry e3
    else
      (e3, [MboxAction.addIOWB pa entry e3.len])
  else
    (e2, [MboxAction.iboxEvent fault e2.instr.pc e2.virtAddress
            e2.instr.opcode e2.instr.aDest false false])

/-- Reset value of a Dcache line written by the Mbox_Init loop body (data
zeroed by memset, tag cleared, all status bits false, state Invalid). -/
def dcacheResetLine : DcacheLine :=
  { data := List.replicate AXP_DCACHE_DATA_LEN 0,
    physTag := 0,
    valid := false,
    dirty := false,
    shared := false,
    modified := false,
    set_0_1 := false,
    locked := false,
    state := CacheLineState.Invalid }

/-- Reset value of a dtag entry written by the Mbox_Init loop body. -/
def dtagResetEntry : DtagEntry :=
  { physTag := 0,
    ctagIndex := AXP_CACHE_ENTRIES,
    ctagSet := AXP_2_WAY_CACHE,
    valid := false }

/-- Reset value of a DTB entry written by the Mbox_Init loop body. -/
def dtbResetEntry : DtbEntry :=
  { virtAddr := 0, physAddr := 0, matchMask := 0, keepMask := 0,
    kre := 0, ere := 0, sre := 0, ure := 0,
    kwe := 0, ewe := 0, swe := 0, uwe := 0,
    faultOnRead := 0, faultOnWrite := 0, faultOnExecute := 0,
    res_1 := 0, asn := 0, _asm := false, valid := false }

/-- Reset value of a MAF slot written by the Mbox_Init loop body. -/
def mafResetEntry : MafEntry :=
  { type := MAFType.MAFNotInUse,
    rq := SysCmd.NOPcmd,
    rsp := SysDC.NOPsysdc,
    pa := 0,
    complete := false }

/-- Stands for the C NULL instruction pointer stored into lq/sq entries by
Mbox_Init; the model embeds instructions by value, so a designated record
plays the role of the null pointer. -/
def NULL_INSTR : AXP_INSTRUCTION :=
  { opcode := Opcode.OTHER, uniqueID := 0, pc := 0, aDest := 0,
    destv := 0, src1v := 0, src2v := 0, displacement := 0, len_stall := 0,
    lockFlagPending := false, lockPhysAddrPending := 0,
    lockVirtAddrPending := 0, clearLockPending := false,
    state := InstrState.Executing }

/-- Reset value of an LQ/SQ slot written by the Mbox_Init loops (value,
virtAddress, instr, state, IOflag, lockCond are assigned; physAddress and
len are not touched by the C and are kept). -/
def qResetEntry (e : AXP_MBOX_QUEUE) : AXP_MBOX_QUEUE :=
  { e with value := 0, virtAddress := 0, instr := NULL_INSTR,
           state := QState.QNotInUse, IOflag := false, lockCond := false }

/-- AXP_21264_Mbox_Init, transliterated loop by loop.  The two cache loops
run ii from 1 (as in the C); the LQ/SQ/DTB/MAF loops run from 0 over arrays
whose lengths equal their loop bounds, so they are plain maps.  The function
returns retVal = false (success) together with the new CPU state. -/
def AXP_21264_Mbox_Init (cpu : AXP_21264_CPU) : Bool × AXP_21264_CPU :=
  (false,
   { cpu with
      dCache := mapWithIndex
        (fun ii row =>
          if 1 ≤ ii ∧ ii < AXP_CACHE_ENTRIES then
            row.map (fun _ => dcacheResetLine)
          else row)
        0 cpu.dCache,
      dtag := mapWithIndex
        (fun ii row =>
          if 1 ≤ ii ∧ ii < AXP_CACHE_ENTRIES then
            row.map (fun _ => dtagResetEntry)
          else row)
        0 cpu.dtag,
      lq := cpu.lq.map qResetEntry,
      lqNext := 0,
      sq := cpu.sq.map qResetEntry,
      sqNext := 0,
      dtb := cpu.dtb.map (fun _ => dtbResetEntry),
      nextDTB := 0,
      maf := cpu.maf.map (fun _ => mafResetEntry),
      tbMissOutstanding := false,
      dtbTag0 := { res_1 := 0, va := 0, res_2 := 0 },
      dtbTag1 := { res_1 := 0, va := 0, res_2 := 0 },
      dtbPte0 := { res_1 := 0, pa := 0, res_2 := 0, uwe := 0, swe := 0,
                   ewe := 0, kwe := 0, ure := 0, sre := 0, ere := 0,
                   kre := 0, res_3 := 0, gh := 0, _asm := 0, res_4 := 0,
                   fow := 0, _for := 0, res_5 := 0 },
      dtbPte1 := { res_1 := 0, pa := 0, res_2 := 0, uwe := 0, swe := 0,
                   ewe := 0, kwe := 0, ure := 0, sre := 0, ere := 0,
                   kre := 0, res_3 := 0, gh := 0, _asm := 0, res_4 := 0,
                   fow := 0, _for := 0, res_5 := 0 },
      dtbAltMode := { alt_mode := AXP_MBOX_ALTMODE_KERNEL, res := 0 },
      dtbIs0 := { res_1 := 0, inval_itb := 0, res_2 := 0 },
      dtbIs1 := { res_1 := 0, inval_itb := 0, res_2 := 0 },
      dtbAsn0 := { res_1 := 0, asn := 0, res_2 := 0 },
      dtbAsn1 := { res_1 := 0, asn := 0, res_2 := 0 },
      mmStat := { res := 0, dc_tag_perr := 0, opcodes := 0, fow := 0,
                  _for := 0, acv := 0, wr := 0 },
      mCtl := { res_1 := 0, spe := 0, res_2 := 0 },
      dcCtl := { dcdat_err_en := 0, dctag_par_en := 0, f_bad_decc := 0,
                 f_bad_tpar := 0, f_hit := 0, set_en := 3 },
      dcStat := { res := 0, seo := 0, ecc_err_ld := 0, ecc_err_st := 0,
                  tperr_p1 := 0, tperr_p2 := cpu.dcStat.tperr_p2 } })

/-- One allocator call, for stating monotonicity of lqNext/sqNext across any
sequence of allocations. -/
inductive AllocOp
  | getLQ
  | getSQ
  deriving DecidableEq, Repr

/-- Apply one allocator call to the CPU state, discarding the returned slot. -/
def runAllocOp (cpu : AXP_21264_CPU) : AllocOp -> AXP_21264_CPU
  | AllocOp.getLQ => (AXP_21264_Mbox_GetLQSlot cpu).2
  | AllocOp.getSQ => (AXP_21264_Mbox_GetSQSlot cpu).2

/-- Apply a sequence of allocator calls in order. -/
def runAllocOps (cpu : AXP_21264_CPU) (ops : List AllocOp) : AXP_21264_CPU :=
  ops.foldl runAllocOp cpu

/-- Big-endian longword address fixup.  Modelled from the spec: the macro
lives in a header that is not among the sources; it flips virtual-address
bit 2.  No proved claim depends on it. -/
def AXP_BIG_ENDIAN_LONG (va : Nat) : Nat := va ^^^ 0x4

/-- AXP_STL_C.  Guest memory is modelled explicitly as a byte map so that
the function's (absent) memory effect is visible: on lockFlag the C assigns
instr->src1v to the local variable vaPrime and never writes guest memory,
so the memory component passes through unchanged in both branches. -/
def AXP_STL_C (cpu : AXP_21264_CPU) (instr : AXP_INSTRUCTION)
    (mem : Nat -> Nat) : AXP_EXCEPTIONS × AXP_INSTRUCTION × (Nat -> Nat) :=
  let va := (instr.src1v + instr.displacement) % 2 ^ 64
  let vaPrime := if cpu.vaCtl.b_endian = 1 then AXP_BIG_ENDIAN_LONG va else va
  if cpu.lockFlag = true then
    let vaPrime := instr.src1v
    (AXP_EXCEPTIONS.NoException,
     { instr with destv := 1, clearLockPending := true,
                  state := InstrState.WaitingRetirement },
     mem)
  else
    (AXP_EXCEPTIONS.NoException,
     { instr with destv := 0, clearLockPending := true,
                  state := InstrState.WaitingRetirement },
     mem)

/-- AXP_STQ_C, analogous to AXP_STL_C but with no endian fixup; on lockFlag
the C assigns instr->src1v to the local va and never writes guest memory. -/
def AXP_STQ_C (cpu : AXP_21264_CPU) (instr : AXP_INSTRUCTION)
    (mem : Nat -> Nat) : AXP_EXCEPTIONS × AXP_INSTRUCTION × (Nat -> Nat) :=
  let va := (instr.src1v + instr.displacement) % 2 ^ 64
  if cpu.lockFlag = true then
    let va := instr.src1v
    (AXP_EXCEPTIONS.NoException,
     { instr with destv := 1, clearLockPending := true,
                  state := InstrState.WaitingRetirement },
     mem)
  else
    (AXP_EXCEPTIONS.NoException,
     { instr with destv := 0, clearLockPending := true,
                  state := InstrState.WaitingRetirement },
     mem)

/-- Default instruction record used to build concrete test states. -/
def instr0 : AXP_INSTRUCTION := NULL_INSTR

/-- Default queue entry used to build concrete test states. -/
def q0 : AXP_MBOX_QUEUE :=
  { state := QState.QNotInUse, value := 0, virtAddress := 0,
    physAddress := 0, len := 0, instr := instr0, IOflag := false,
    lockCond := false }

/-- A fully reset CPU state with arrays of their architectural lengths. -/
def cpu0 : AXP_21264_CPU :=
  { dCache := List.replicate AXP_CACHE_ENTRIES
      (List.replicate AXP_2_WAY_CACHE dcacheResetLine),
    dtag := List.replicate AXP_CACHE_ENTRIES
      (List.replicate AXP_2_WAY_CACHE dtagResetEntry),
    lq := List.replicate AXP_MBOX_QUEUE_LEN q0,
    lqNext := 0,
    sq := List.replicate AXP_MBOX_QUEUE_LEN q0,
    sqNext := 0,
    dtb := List.replicate AXP_TB_LEN dtbResetEntry,
    nextDTB := 0,
    maf := List.replicate AXP_21264_MAF_LEN mafResetEntry,
    tbMissOutstanding := false,
    dtbTag0 := { res_1 := 0, va := 0, res_2 := 0 },
    dtbTag1 := { res_1 := 0, va := 0, res_2 := 0 },
    dtbPte0 := { res_1 := 0, pa := 0, res_2 := 0, uwe := 0, swe := 0,
                 ewe := 0, kwe := 0, ure := 0, sre := 0, ere := 0,
                 kre := 0, res_3 := 0, gh := 0, _asm := 0, res_4 := 0,
                 fow := 0, _for := 0, res_5 := 0 },
    dtbPte1 := { res_1 := 0, pa := 0, res_2 := 0, uwe := 0, swe := 0,
                 ewe := 0, kwe := 0, ure := 0, sre := 0, ere := 0,
                 kre := 0, res_3 := 0, gh := 0, _asm := 0, res_4 := 0,
                 fow := 0, _for := 0, res_5 := 0 },
    dtbAltMode := { alt_mode := AXP_MBOX_ALTMODE_KERNEL, res := 0 },
    dtbIs0 := { res_1 := 0, inval_itb := 0, res_2 := 0 },
    dtbIs1 := { res_1 := 0, inval_itb := 0, res_2 := 0 },
    dtbAsn0 := { res_1 := 0, asn := 0, res_2 := 0 },
    dtbAsn1 := { res_1 := 0, asn := 0, res_2 := 0 },
    mmStat := { res := 0, dc_tag_perr := 0, opcodes := 0, fow := 0,
                _for := 0, acv := 0, wr := 0 },
    mCtl := { res_1 := 0, spe := 0, res_2 := 0 },
    dcCtl := { dcdat_err_en := 0, dctag_par_en := 0, f_bad_decc := 0,
               f_bad_tpar := 0, f_hit := 0, set_en := 3 },
    dcStat := { res := 0, seo := 0, ecc_err_ld := 0, ecc_err_st := 0,
                tperr_p1 := 0, tperr_p2 := 0 },
    lockFlag := false,
    vaCtl := { b_endian := 0 } }

/-- Zero guest/emulator memory used by concrete tests. -/
def mem0 : Nat -> Nat := fun _ => 0

/-- Environment in which every cache probe misses and translation succeeds
trivially; used by concrete tests that never reach those oracles. -/
def env0 : MboxEnv :=
  { dcacheHit := fun _ _ => false,
    bcacheHit := fun _ => false,
    dcacheReadVal := fun _ _ _ => 0,
    va2pa := fun _ _ => (0, 0),
    isIOAddrCheck := fun _ => false }

/-- LQ entry for the C1 test: a byte load of VA 0x1000 with uniqueID 10. -/
def lqC1 : AXP_MBOX_QUEUE :=
  { q0 with state := QState.LQReadPending, virtAddress := 0x1000,
            len := 1, instr := { instr0 with uniqueID := 10 } }

/-- SQ entry younger than the C1 load (uniqueID 20), same address, covering
length, qualifying state. -/
def sqYoungC1 : AXP_MBOX_QUEUE :=
  { q0 with state := QState.Initial, virtAddress := 0x1000,
            len := 1, value := 0xAB,
            instr := { instr0 with uniqueID := 20 } }

/-- SQ entry older than the C1 load (uniqueID 5), same address, covering
length, qualifying state. -/
def sqOldC1 : AXP_MBOX_QUEUE :=
  { q0 with state := QState.Initial, virtAddress := 0x1000,
            len := 1, value := 0xCD,
            instr := { instr0 with uniqueID := 5 } }

/-- Emulator memory for the C3 test: bytes 0xCD, 0xAB at addresses 0x1234,
0x1235. -/
def memC3 : Nat -> Nat := fun a =>
  if a = 0x1234 then 0xCD else if a = 0x1235 then 0xAB else 0

/-- LQ entry for the C3 test: a word (2-byte) load of VA 0x3000, uniqueID 10. -/
def lqC3 : AXP_MBOX_QUEUE :=
  { q0 with state := QState.LQReadPending, virtAddress := 0x3000,
            len := 2, instr := { instr0 with uniqueID := 10 } }

/-- SQ entry the C3 load forwards from: value field 0x1234, store width 8,
uniqueID 30 (which the code treats as qualifying, see C1). -/
def sqC3 : AXP_MBOX_QUEUE :=
  { q0 with state := QState.Initial, virtAddress := 0x3000,
            len := 8, value := 0x1234,
            instr := { instr0 with uniqueID := 30 } }

/-- Environment for the C4 test: translation always faults (physical address
0) with fault code 5. -/
def envC4 : MboxEnv :=
  { env0 with va2pa := fun _ _ => (0, 5) }

/-- LQ entry for the C4 test: freshly published LDQ at VA 0x2000, PC 0x77,
destination register 3. -/
def lqC4 : AXP_MBOX_QUEUE :=
  { q0 with state := QState.Initial, virtAddress := 0x2000,
            instr := { instr0 with
                        opcode := Opcode.LDQ, pc := 0x77,
                        aDest := 3, uniqueID := 9 } }

/-- Modelled from the spec: the forwarding predicate as the claim and the
spec state it - S.state in {Initial, SQWritePending, SQComplete}, equal
virtual addresses, S.len covering L.len, and S.instr.uniqueID <
L.instr.uniqueID (the store OLDER than the load).  It is stated here beside
fwdMatch, the predicate the code implements, whose age test runs the other
way; compare the last conjunct of each. -/
def specFwdQualifies (lq s : AXP_MBOX_QUEUE) : Bool :=
  (decide (s.state = QState.Initial)
      || decide (s.state = QState.SQWritePending)
      || decide (s.state = QState.SQComplete))
    && decide (lq.virtAddress = s.virtAddress)
    && decide (lq.len ≤ s.len)
    && decide (s.instr.uniqueID < lq.instr.uniqueID)

/-- First store of the spec's seed scenario for C2: byte 0x01, uniqueID 5,
VA 0x2000, qualifying state. -/
def sqSeed5 : AXP_MBOX_QUEUE :=
  { q0 with state := QState.Initial, virtAddress := 0x2000,
            len := 1, value := 0x01,
            instr := { instr0 with uniqueID := 5 } }

/-- Second store of the seed scenario: byte 0x02, uniqueID 7. -/
def sqSeed7 : AXP_MBOX_QUEUE :=
  { q0 with state := QState.SQWritePending, virtAddress := 0x2000,
            len := 1, value := 0x02,
            instr := { instr0 with uniqueID := 7 } }

/-- Third store of the seed scenario, the youngest older store: byte 0x03,
uniqueID 9. -/
def sqSeed9 : AXP_MBOX_QUEUE :=
  { q0 with state := QState.SQComplete, virtAddress := 0x2000,
            len := 1, value := 0x03,
            instr := { instr0 with uniqueID := 9 } }

/-- The seed scenario's load: byte load of VA 0x2000 with uniqueID 10, so
all three stores above are older than it and cover it. -/
def lqSeed2 : AXP_MBOX_QUEUE :=
  { q0 with state := QState.LQReadPending, virtAddress := 0x2000,
            len := 1, instr := { instr0 with uniqueID := 10 } }

/-- LQ entry for the C5 witness: pending memory load with no qualifying
store (the SQ is empty in the witness). -/
def lqC5 : AXP_MBOX_QUEUE :=
  { q0 with state := QState.LQReadPending, virtAddress := 0x4000,
            physAddress := 0x9000, len := 8,
            instr := { instr0 with uniqueID := 12 } }

/-- Environment for the C5 witness: both caches miss. -/
def envC5 : MboxEnv := env0

/-- Dcache line with stale live contents, for the C8 test. -/
def dirtyLine : DcacheLine :=
  { dcacheResetLine with valid := true, dirty := true,
                         state := CacheLineState.Modified, physTag := 0x55 }

/-- CPU whose Dcache set 0 holds stale live lines in both ways and whose
other sets are clean, for the C8 test. -/
def cpuC8 : AXP_21264_CPU :=
  { cpu0 with
      dCache := [dirtyLine, dirtyLine] ::
        List.replicate (AXP_CACHE_ENTRIES - 1)
          (List.replicate AXP_2_WAY_CACHE dcacheResetLine) }

/-- CPU with both queues full, for the C10 witness. -/
def cpuFull : AXP_21264_CPU :=
  { cpu0 with lqNext := AXP_MBOX_QUEUE_LEN, sqNext := AXP_MBOX_QUEUE_LEN }

/-- Instruction record for the C9 test: a store-conditional with source
value 0x99 and displacement 0x10. -/
def instrC9 : AXP_INSTRUCTION :=
  { instr0 with opcode := Opcode.STQ_C, src1v := 0x99,
                displacement := 0x10, uniqueID := 17 }

/-- If the scan ends with a selected entry, it was either already the
accumulator or it is a qualifying member of the scanned list. -/
theorem scanFrom_src (lq : AXP_MBOX_QUEUE) (l : List AXP_MBOX_QUEUE) :
    ∀ (ii : Nat) (acc : Option (Nat × AXP_MBOX_QUEUE)) (j : Nat)
      (s : AXP_MBOX_QUEUE),
      scanFrom lq ii l acc = some (j, s) →
      acc = some (j, s) ∨ (s ∈ l ∧ fwdMatch lq s = true) := by
  induction l with
  | nil =>
    intro ii acc j s h
    exact Or.inl h
  | cons s1 rest ih =>
    intro ii acc j s h
    simp only [scanFrom] at h
    rcases ih (ii + 1) _ j s h with h2 | h2
    · cases acc with
      | none =>
        simp only [scanStep] at h2
        by_cases hm : fwdMatch lq s1 = true
        · rw [if_pos hm] at h2
          have hs : s1 = s := by
            simpa using congrArg (fun o => Option.map Prod.snd o) h2
          exact Or.inr ⟨by simp [hs.symm], hs ▸ hm⟩
        · rw [if_neg hm] at h2
          exact absurd h2 (by simp)
      | some p =>
        obtain ⟨j0, sj⟩ := p
        simp only [scanStep] at h2
        by_cases hm : fwdMatch lq s1 = true
        · rw [if_pos hm] at h2
          by_cases hlt : sj.instr.uniqueID < s1.instr.uniqueID
          · rw [if_pos hlt] at h2
            have hs : s1 = s := by
              simpa using congrArg (fun o => Option.map Prod.snd o) h2
            exact Or.inr ⟨by simp [hs.symm], hs ▸ hm⟩
          · rw [if_neg hlt] at h2
            exact Or.inl h2
        · rw [if_neg hm] at h2
          exact Or.inl h2
    · exact Or.inr ⟨List.mem_cons_of_mem _ h2.1, h2.2⟩

/-- The selected entry's uniqueID dominates both every qualifying entry of
the scanned list and whatever the accumulator held. -/
theorem scanFrom_max (lq : AXP_MBOX_QUEUE) (l : List AXP_MBOX_QUEUE) :
    ∀ (ii : Nat) (acc : Option (Nat × AXP_MBOX_QUEUE)) (j : Nat)
      (s : AXP_MBOX_QUEUE),
      scanFrom lq ii l acc = some (j, s) →
      (∀ t ∈ l, fwdMatch lq t = true → t.instr.uniqueID ≤ s.instr.uniqueID) ∧
      (∀ (j0 : Nat) (sj : AXP_MBOX_QUEUE),
        acc = some (j0, sj) → sj.instr.uniqueID ≤ s.instr.uniqueID) := by
  induction l with
  | nil =>
    intro ii acc j s h
    refine ⟨by simp, ?_⟩
    intro j0 sj hacc
    rw [hacc] at h
    simp only [scanFrom, Option.some.injEq, Prod.mk.injEq] at h
    exact h.2 ▸ Nat.le_refl _
  | cons s1 rest ih =>
    intro ii acc j s h
    simp only [scanFrom] at h
    have IH := ih (ii + 1) _ j s h
    have hstep : ∀ (j0 : Nat) (sj : AXP_MBOX_QUEUE), acc = some (j0, sj) →
        sj.instr.uniqueID ≤ s.instr.uniqueID := by
      intro j0 sj hacc
      subst hacc
      simp only [scanStep] at IH
      by_cases hm : fwdMatch lq s1 = true
      · rw [if_pos hm] at IH
        by_cases hlt : sj.instr.uniqueID < s1.instr.uniqueID
        · rw [if_pos hlt] at IH
          exact Nat.le_trans (Nat.le_of_lt hlt) (IH.2 ii s1 rfl)
        · rw [if_neg hlt] at IH
          exact IH.2 j0 sj rfl
      · rw [if_neg hm] at IH
        exact IH.2 j0 sj rfl
    refine ⟨?_, hstep⟩
    intro t ht hmt
    rcases List.mem_cons.mp ht with rfl | ht2
    · cases acc with
      | none =>
        simp only [scanStep] at IH
        rw [if_pos hmt] at IH
        exact IH.2 ii t rfl
      | some p =>
        obtain ⟨j0, sj⟩ := p
        simp only [scanStep] at IH
        rw [if_pos hmt] at IH
        by_cases hlt : sj.instr.uniqueID < t.instr.uniqueID
        · rw [if_pos hlt] at IH
          exact IH.2 ii t rfl
        · rw [if_neg hlt] at IH
          exact Nat.le_trans (Nat.le_of_not_lt hlt) (IH.2 j0 sj rfl)
    · exact IH.1 t ht2 hmt

/-- Once the accumulator is occupied, the scan stays occupied. -/
theorem scanFrom_some_acc (lq : AXP_MBOX_QUEUE) (l : List AXP_MBOX_QUEUE) :
    ∀ (ii j0 : Nat) (sj : AXP_MBOX_QUEUE),
      ∃ (j : Nat) (s : AXP_MBOX_QUEUE),
        scanFrom lq ii l (some (j0, sj)) = some (j, s) := by
  induction l with
  | nil =>
    intro ii j0 sj
    exact ⟨j0, sj, rfl⟩
  | cons s1 rest ih =>
    intro ii j0 sj
    simp only [scanFrom, scanStep]
    by_cases hm : fwdMatch lq s1 = true
    · rw [if_pos hm]
      by_cases hlt : sj.instr.uniqueID < s1.instr.uniqueID
      · rw [if_pos hlt]
        exact ih (ii + 1) ii s1
      · rw [if_neg hlt]
        exact ih (ii + 1) j0 sj
    · rw [if_neg hm]
      exact ih (ii + 1) j0 sj

/-- If some entry of the list qualifies, the scan selects something. -/
theorem scanFrom_some (lq : AXP_MBOX_QUEUE) (l : List AXP_MBOX_QUEUE) :
    ∀ (ii : Nat) (acc : Option (Nat × AXP_MBOX_QUEUE))
      (t : AXP_MBOX_QUEUE), t ∈ l → fwdMatch lq t = true →
      ∃ (j : Nat) (s : AXP_MBOX_QUEUE), scanFrom lq ii l acc = some (j, s) := by
  induction l with
  | nil =>
    intro ii acc t ht
    exact absurd ht (List.not_mem_nil t)
  | cons s1 rest ih =>
    intro ii acc t ht hmt
    simp only [scanFrom]
    rcases List.mem_cons.mp ht with rfl | ht2
    · cases acc with
      | none =>
        simp only [scanStep]
        rw [if_pos hmt]
        exact scanFrom_some_acc lq rest (ii + 1) ii t
      | some p =>
        obtain ⟨j0, sj⟩ := p
        simp only [scanStep]
        rw [if_pos hmt]
        by_cases hlt : sj.instr.uniqueID < t.instr.uniqueID
        · rw [if_pos hlt]
          exact scanFrom_some_acc lq rest (ii + 1) ii t
        · rw [if_neg hlt]
          exact scanFrom_some_acc lq rest (ii + 1) j0 sj
    · exact ih (ii + 1) _ t ht2 hmt

/-- Claim C1 (code_bug evidence): the forwarding age comparison in
AXP_21264_Mbox_TryCaches is reversed.  With a single SQ entry at the same
address, covering length and qualifying state, the scan selects the store
whose uniqueID 20 is GREATER than the load's uniqueID 10, violating the
claimed S.instr.uniqueID < L.instr.uniqueID; and it rejects the store whose
uniqueID 5 is less than the load's, which the claim says is the only kind of
store that may be selected.  The code's own comment says the store must be
older than the load. -/
theorem C1_age_comparison_reversed :
    scanSQ lqC1 [sqYoungC1] = some (0, sqYoungC1) ∧
    lqC1.instr.uniqueID < sqYoungC1.instr.uniqueID ∧
    scanSQ lqC1 [sqOldC1] = none ∧
    sqOldC1.instr.uniqueID < lqC1.instr.uniqueID ∧
    (AXP_21264_Mbox_TryCaches env0 mem0 [sqYoungC1] 0 lqC1).1.state
      = QState.LQComplete := by
  refine ⟨by decide, by decide, by decide, by decide, by decide⟩

/-- The claim's forwarding predicate and the one the code implements are
mutually exclusive: a store that qualifies per the claim (older than the
load) can never pass the code's reversed age test, so no store the claim is
about is ever selected as a forwarding source. -/
theorem specFwdQualifies_excludes_fwdMatch (lq s : AXP_MBOX_QUEUE)
    (h : specFwdQualifies lq s = true) : fwdMatch lq s = false := by
  simp only [specFwdQualifies, Bool.and_eq_true, decide_eq_true_eq] at h
  have hlt : ¬ lq.instr.uniqueID < s.instr.uniqueID := by omega
  have hdec : decide (lq.instr.uniqueID < s.instr.uniqueID) = false := by
    simp [hlt]
  simp [fwdMatch, hdec]

/-- Claim C2 (code_bug evidence): at the spec's seed scenario - byte stores
0x01, 0x02, 0x03 with uniqueIDs 5, 7, 9 to VA 0x2000 and a byte load with
uniqueID 10 - more than one SQ entry satisfies the claim's forwarding
predicate and the greatest-uniqueID qualifying entry is the uid-9 store,
yet the code (its age test reversed, see C1) selects no forwarding source
at all: the scan returns none, destv is not written from that store, and
the load falls through to cache probing, remaining in LQReadPending on a
double miss instead of completing with the forwarded value. -/
theorem C2_code_ignores_older_qualifying_stores :
    (specFwdQualifies lqSeed2 sqSeed5 = true ∧
     specFwdQualifies lqSeed2 sqSeed7 = true ∧
     specFwdQualifies lqSeed2 sqSeed9 = true) ∧
    (∀ u ∈ [sqSeed5, sqSeed7, sqSeed9],
      specFwdQualifies lqSeed2 u = true →
      u.instr.uniqueID ≤ sqSeed9.instr.uniqueID) ∧
    scanSQ lqSeed2 [sqSeed5, sqSeed7, sqSeed9] = none ∧
    (AXP_21264_Mbox_TryCaches env0 mem0 [sqSeed5, sqSeed7, sqSeed9] 0
        lqSeed2).1.instr.destv ≠ sqSeed9.value % 2 ^ 8 ∧
    (AXP_21264_Mbox_TryCaches env0 mem0 [sqSeed5, sqSeed7, sqSeed9] 0
        lqSeed2).1.state = QState.LQReadPending ∧
    (AXP_21264_Mbox_TryCaches env0 mem0 [sqSeed5, sqSeed7, sqSeed9] 0
        lqSeed2).2
      = [MboxAction.probeDcache lqSeed2.virtAddress lqSeed2.physAddress,
         MboxAction.probeBcache lqSeed2.physAddress,
         MboxAction.addMAF MAFType.LDx lqSeed2.physAddress 0 lqSeed2.len] := by
  refine ⟨⟨by decide, by decide, by decide⟩, by decide, by decide,
    by decide, by decide, by decide⟩

/-- Claim C3 (code_bug evidence): the forwarded-value switch does not copy
the low len bytes of the store's value for len 2 (nor 4, 8); it dereferences
the value field as a pointer.  With store value 0x1234 and emulator memory
holding bytes 0xCD, 0xAB at addresses 0x1234, 0x1235, a 2-byte load receives
destv = 0xABCD instead of the claimed low two bytes 0x1234 of the value. -/
theorem C3_forward_copy_dereferences_value :
    (AXP_21264_Mbox_TryCaches env0 memC3 [sqC3] 0 lqC3).1.instr.destv
      = 0xABCD ∧
    (AXP_21264_Mbox_TryCaches env0 memC3 [sqC3] 0 lqC3).1.state
      = QState.LQComplete ∧
    sqC3.value % 2 ^ 16 = 0x1234 ∧
    (AXP_21264_Mbox_TryCaches env0 memC3 [sqC3] 0 lqC3).1.instr.destv
      ≠ sqC3.value % 2 ^ 16 := by
  refine ⟨by decide, by decide, by decide, by decide⟩

/-- The length switch at the top of LQ_Init only writes len (and, for HW_LD,
len_stall); every other field of the entry and of its instruction passes
through unchanged. -/
theorem lqInitSetLen_fields (e : AXP_MBOX_QUEUE) :
    (lqInitSetLen e).virtAddress = e.virtAddress ∧
    (lqInitSetLen e).state = e.state ∧
    (lqInitSetLen e).instr.pc = e.instr.pc ∧
    (lqInitSetLen e).instr.opcode = e.instr.opcode ∧
    (lqInitSetLen e).instr.aDest = e.instr.aDest := by
  unfold lqInitSetLen
  split <;> simp [AXP_HW_LD_LONGWORD]

/-- Claim C4 amended: when AXP_va2pa reports a translation fault (physical
address 0), AXP_21264_Mbox_LQ_Init raises exactly one Ibox event carrying
the fault, PC, virtual address, opcode and destination register, and the
LQ entry's state is left unchanged (it is NOT set to QNotInUse). -/
theorem C4_fault_event_state_unchanged
    (env : MboxEnv) (mem : Nat -> Nat) (sq : List AXP_MBOX_QUEUE)
    (entry : Nat) (e : AXP_MBOX_QUEUE) (fault : Nat)
    (hpa : env.va2pa e.virtAddress e.instr.pc = (0, fault)) :
    (AXP_21264_Mbox_LQ_Init env mem sq entry e).1.state = e.state ∧
    (AXP_21264_Mbox_LQ_Init env mem sq entry e).2 =
      [MboxAction.iboxEvent fault e.instr.pc e.virtAddress
        e.instr.opcode e.instr.aDest false false] := by
  obtain ⟨hva, hst, hpc, hop, had⟩ := lqInitSetLen_fields e
  simp only [AXP_21264_Mbox_LQ_Init, hva, hpc, hpa]
  simp [hst, hop, had, hpc, hva]

/-- Witness for the amended C4 at a concrete faulting translation. -/
theorem C4_fault_event_state_unchanged_witness :
    envC4.va2pa lqC4.virtAddress lqC4.instr.pc = (0, 5) ∧
    ((AXP_21264_Mbox_LQ_Init envC4 mem0 [] 0 lqC4).1.state = lqC4.state ∧
     (AXP_21264_Mbox_LQ_Init envC4 mem0 [] 0 lqC4).2 =
       [MboxAction.iboxEvent 5 lqC4.instr.pc lqC4.virtAddress
         lqC4.instr.opcode lqC4.instr.aDest false false]) :=
  ⟨rfl, C4_fault_event_state_unchanged envC4 mem0 [] 0 lqC4 5 rfl⟩

/-- Claim C4 as stated is false on the code: at a concrete faulting load the
Ibox event is raised but the entry's state stays Initial instead of becoming
QNotInUse. -/
theorem C4_counterexample_entry_not_discarded :
    (AXP_21264_Mbox_LQ_Init envC4 mem0 [] 0 lqC4).1.state = QState.Initial ∧
    (AXP_21264_Mbox_LQ_Init envC4 mem0 [] 0 lqC4).1.state
      ≠ QState.QNotInUse ∧
    (AXP_21264_Mbox_LQ_Init envC4 mem0 [] 0 lqC4).2 =
      [MboxAction.iboxEvent 5 0x77 0x2000 Opcode.LDQ 3 false false] := by
  refine ⟨by decide, by decide, by decide⟩

/-- Claim C5: for a pending memory load with no forwarding store,
AXP_21264_Mbox_TryCaches probes the Dcache first; on a Dcache miss it probes
the Bcache; on a Bcache hit it copies the line into the Dcache and then
reads the load width into destv, completing the entry; when both caches
miss it posts a MAF entry recording kind LDx, the physical address, the LQ
slot and the length, and the entry stays in LQReadPending. -/
theorem C5_cache_probe_protocol
    (env : MboxEnv) (mem : Nat -> Nat) (sq : List AXP_MBOX_QUEUE)
    (entry : Nat) (e : AXP_MBOX_QUEUE)
    (hfwd : scanSQ e sq = none)
    (hst : e.state = QState.LQReadPending)
    (hio : e.IOflag = false) :
    (env.dcacheHit e.virtAddress e.physAddress = true →
      AXP_21264_Mbox_TryCaches env mem sq entry e =
        ({ e with
            instr := { e.instr with
              destv := env.dcacheReadVal e.virtAddress e.physAddress e.len },
            state := QState.LQComplete },
         [MboxAction.probeDcache e.virtAddress e.physAddress,
          MboxAction.dcacheRead e.virtAddress e.physAddress e.len])) ∧
    (env.dcacheHit e.virtAddress e.physAddress = false →
      env.bcacheHit e.physAddress = true →
      AXP_21264_Mbox_TryCaches env mem sq entry e =
        ({ e with
            instr := { e.instr with
              destv := env.dcacheReadVal e.virtAddress e.physAddress e.len },
            state := QState.LQComplete },
         [MboxAction.probeDcache e.virtAddress e.physAddress,
          MboxAction.probeBcache e.physAddress,
          MboxAction.copyBcacheToDcache e.virtAddress e.physAddress,
          MboxAction.dcacheRead e.virtAddress e.physAddress e.len])) ∧
    (env.dcacheHit e.virtAddress e.physAddress = false →
      env.bcacheHit e.physAddress = false →
      AXP_21264_Mbox_TryCaches env mem sq entry e =
        (e, [MboxAction.probeDcache e.virtAddress e.physAddress,
             MboxAction.probeBcache e.physAddress,
             MboxAction.addMAF MAFType.LDx e.physAddress entry e.len]) ∧
      (AXP_21264_Mbox_TryCaches env mem sq entry e).1.state
        = QState.LQReadPending) := by
  refine ⟨?_, ?_, ?_⟩
  · intro hd
    simp only [AXP_21264_Mbox_TryCaches, hfwd, hd, if_true, dcacheReadFinish]
    simp
  · intro hd hb
    simp only [AXP_21264_Mbox_TryCaches, hfwd, hd, hb, dcacheReadFinish]
    simp
  · intro hd hb
    constructor
    · simp only [AXP_21264_Mbox_TryCaches, hfwd, hd, hb]
      simp
    · simp only [AXP_21264_Mbox_TryCaches, hfwd, hd, hb]
      simp [hst]

/-- Witness for C5 at a concrete state: empty SQ (so no forwarding source),
pending non-I/O load, both caches missing. -/
theorem C5_cache_probe_protocol_witness :
    (scanSQ lqC5 ([] : List AXP_MBOX_QUEUE) = none ∧
     lqC5.state = QState.LQReadPending ∧ lqC5.IOflag = false) ∧
    (envC5.dcacheHit lqC5.virtAddress lqC5.physAddress = false →
      envC5.bcacheHit lqC5.physAddress = false →
      AXP_21264_Mbox_TryCaches envC5 mem0 [] 0 lqC5 =
        (lqC5, [MboxAction.probeDcache lqC5.virtAddress lqC5.physAddress,
                MboxAction.probeBcache lqC5.physAddress,
                MboxAction.addMAF MAFType.LDx lqC5.physAddress 0 lqC5.len]) ∧
      (AXP_21264_Mbox_TryCaches envC5 mem0 [] 0 lqC5).1.state
        = QState.LQReadPending) :=
  ⟨⟨rfl, rfl, rfl⟩,
   (C5_cache_probe_protocol envC5 mem0 [] 0 lqC5 rfl rfl rfl).2.2⟩

/-- Reading cell i of an index-aware map that started at offset k applies
the rewrite function at logical index k + i. -/
theorem mapWithIndex_get {A : Type} (f : Nat -> A -> A) :
    ∀ (l : List A) (k i : Nat),
      (mapWithIndex f k l).get? i = (l.get? i).map (fun a => f (k + i) a) := by
  intro l
  induction l with
  | nil =>
    intro k i
    simp [mapWithIndex]
  | cons a t ih =>
    intro k i
    cases i with
    | zero =>
      simp [mapWithIndex]
    | succ n =>
      have harith : k + 1 + n = k + (n + 1) := by omega
      simp only [mapWithIndex, List.get?_cons_succ]
      rw [ih (k + 1) n, harith]

/-- GetLQSlot when a slot is free: unfolded form. -/
theorem getLQSlot_free (cpu : AXP_21264_CPU)
    (h : cpu.lqNext < AXP_MBOX_QUEUE_LEN) :
    AXP_21264_Mbox_GetLQSlot cpu =
      (cpu.lqNext,
       { cpu with
          lq := setQState cpu.lq cpu.lqNext QState.Assigned,
          lqNext := cpu.lqNext + 1 }) := by
  simp [AXP_21264_Mbox_GetLQSlot, h]

/-- GetLQSlot when the queue is exhausted: unfolded form. -/
theorem getLQSlot_full (cpu : AXP_21264_CPU)
    (h : ¬ cpu.lqNext < AXP_MBOX_QUEUE_LEN) :
    AXP_21264_Mbox_GetLQSlot cpu = (AXP_MBOX_QUEUE_LEN, cpu) := by
  simp [AXP_21264_Mbox_GetLQSlot, h]

/-- GetSQSlot when a slot is free: unfolded form. -/
theorem getSQSlot_free (cpu : AXP_21264_CPU)
    (h : cpu.sqNext < AXP_MBOX_QUEUE_LEN) :
    AXP_21264_Mbox_GetSQSlot cpu =
      (cpu.sqNext,
       { cpu with
          sq := setQState cpu.sq cpu.sqNext QState.Assigned,
          sqNext := cpu.sqNext + 1 }) := by
  simp [AXP_21264_Mbox_GetSQSlot, h]

/-- GetSQSlot when the queue is exhausted: unfolded form. -/
theorem getSQSlot_full (cpu : AXP_21264_CPU)
    (h : ¬ cpu.sqNext < AXP_MBOX_QUEUE_LEN) :
    AXP_21264_Mbox_GetSQSlot cpu = (AXP_MBOX_QUEUE_LEN, cpu) := by
  simp [AXP_21264_Mbox_GetSQSlot, h]

/-- After allocation the assigned slot really is in state Assigned. -/
theorem setQState_get (l : List AXP_MBOX_QUEUE) (i : Nat) (st : QState)
    (a : AXP_MBOX_QUEUE) (ha : l.get? i = some a) :
    ((setQState l i st).get? i).map AXP_MBOX_QUEUE.state = some st := by
  rw [setQState, mapWithIndex_get, ha]
  simp

/-- Claim C6: each allocator either returns a slot index below
AXP_MBOX_QUEUE_LEN, in which case that index was the old next-index, the
next-index is incremented by one and the slot's state becomes Assigned, or
it returns the sentinel AXP_MBOX_QUEUE_LEN, and it does the latter exactly
when the queue is full. -/
theorem C6_slot_allocators (cpu : AXP_21264_CPU)
    (hlq : cpu.lq.length = AXP_MBOX_QUEUE_LEN)
    (hsq : cpu.sq.length = AXP_MBOX_QUEUE_LEN)
    (h1 : cpu.lqNext ≤ AXP_MBOX_QUEUE_LEN)
    (h2 : cpu.sqNext ≤ AXP_MBOX_QUEUE_LEN) :
    (((AXP_21264_Mbox_GetLQSlot cpu).1 < AXP_MBOX_QUEUE_LEN ∧
      (AXP_21264_Mbox_GetLQSlot cpu).1 = cpu.lqNext ∧
      (AXP_21264_Mbox_GetLQSlot cpu).2.lqNext = cpu.lqNext + 1 ∧
      ((AXP_21264_Mbox_GetLQSlot cpu).2.lq.get?
          (AXP_21264_Mbox_GetLQSlot cpu).1).map AXP_MBOX_QUEUE.state
        = some QState.Assigned) ∨
     ((AXP_21264_Mbox_GetLQSlot cpu).1 = AXP_MBOX_QUEUE_LEN ∧
      cpu.lqNext = AXP_MBOX_QUEUE_LEN)) ∧
    ((AXP_21264_Mbox_GetLQSlot cpu).1 = AXP_MBOX_QUEUE_LEN ↔
      cpu.lqNext = AXP_MBOX_QUEUE_LEN) ∧
    (((AXP_21264_Mbox_GetSQSlot cpu).1 < AXP_MBOX_QUEUE_LEN ∧
      (AXP_21264_Mbox_GetSQSlot cpu).1 = cpu.sqNext ∧
      (AXP_21264_Mbox_GetSQSlot cpu).2.sqNext = cpu.sqNext + 1 ∧
      ((AXP_21264_Mbox_GetSQSlot cpu).2.sq.get?
          (AXP_21264_Mbox_GetSQSlot cpu).1).map AXP_MBOX_QUEUE.state
        = some QState.Assigned) ∨
     ((AXP_21264_Mbox_GetSQSlot cpu).1 = AXP_MBOX_QUEUE_LEN ∧
      cpu.sqNext = AXP_MBOX_QUEUE_LEN)) ∧
    ((AXP_21264_Mbox_GetSQSlot cpu).1 = AXP_MBOX_QUEUE_LEN ↔
      cpu.sqNext = AXP_MBOX_QUEUE_LEN) := by
  refine ⟨?_, ?_, ?_, ?_⟩
  · by_cases h : cpu.lqNext < AXP_MBOX_QUEUE_LEN
    · left
      rw [getLQSlot_free cpu h]
      obtain ⟨a, ha⟩ : ∃ a, cpu.lq.get? cpu.lqNext = some a := by
        cases hget : cpu.lq.get? cpu.lqNext with
        | none =>
          have := List.get?_eq_none.mp hget
          omega
        | some a => exact ⟨a, rfl⟩
      exact ⟨h, rfl, rfl, setQState_get cpu.lq cpu.lqNext QState.Assigned a ha⟩
    · right
      rw [getLQSlot_full cpu h]
      exact ⟨rfl, by omega⟩
  · by_cases h : cpu.lqNext < AXP_MBOX_QUEUE_LEN
    · rw [getLQSlot_free cpu h]
    · rw [getLQSlot_full cpu h]
      show AXP_MBOX_QUEUE_LEN = AXP_MBOX_QUEUE_LEN ↔
        cpu.lqNext = AXP_MBOX_QUEUE_LEN
      constructor
      · intro _
        omega
      · intro _
        rfl
  · by_cases h : cpu.sqNext < AXP_MBOX_QUEUE_LEN
    · left
      rw [getSQSlot_free cpu h]
      obtain ⟨a, ha⟩ : ∃ a, cpu.sq.get? cpu.sqNext = some a := by
        cases hget : cpu.sq.get? cpu.sqNext with
        | none =>
          have := List.get?_eq_none.mp hget
          omega
        | some a => exact ⟨a, rfl⟩
      exact ⟨h, rfl, rfl, setQState_get cpu.sq cpu.sqNext QState.Assigned a ha⟩
    · right
      rw [getSQSlot_full cpu h]
      exact ⟨rfl, by omega⟩
  · by_cases h : cpu.sqNext < AXP_MBOX_QUEUE_LEN
    · rw [getSQSlot_free cpu h]
    · rw [getSQSlot_full cpu h]
      show AXP_MBOX_QUEUE_LEN = AXP_MBOX_QUEUE_LEN ↔
        cpu.sqNext = AXP_MBOX_QUEUE_LEN
      constructor
      · intro _
        omega
      · intro _
        rfl

/-- Witness for C6 at the reset state (both queues empty). -/
theorem C6_slot_allocators_witness :
    (cpu0.lq.length = AXP_MBOX_QUEUE_LEN ∧
     cpu0.sq.length = AXP_MBOX_QUEUE_LEN ∧
     cpu0.lqNext ≤ AXP_MBOX_QUEUE_LEN ∧
     cpu0.sqNext ≤ AXP_MBOX_QUEUE_LEN) ∧
    ((AXP_21264_Mbox_GetLQSlot cpu0).1 = AXP_MBOX_QUEUE_LEN ↔
      cpu0.lqNext = AXP_MBOX_QUEUE_LEN) :=
  ⟨⟨by decide, by decide, by decide, by decide⟩,
   (C6_slot_allocators cpu0 (by decide) (by decide) (by decide)
      (by decide)).2.1⟩

/-- One allocator call never decreases either next-index and keeps each
below the queue length if it was below before. -/
theorem runAllocOp_bounds (cpu : AXP_21264_CPU) (op : AllocOp) :
    cpu.lqNext ≤ (runAllocOp cpu op).lqNext ∧
    cpu.sqNext ≤ (runAllocOp cpu op).sqNext ∧
    (cpu.lqNext ≤ AXP_MBOX_QUEUE_LEN →
      (runAllocOp cpu op).lqNext ≤ AXP_MBOX_QUEUE_LEN) ∧
    (cpu.sqNext ≤ AXP_MBOX_QUEUE_LEN →
      (runAllocOp cpu op).sqNext ≤ AXP_MBOX_QUEUE_LEN) := by
  cases op with
  | getLQ =>
    by_cases h : cpu.lqNext < AXP_MBOX_QUEUE_LEN
    · simp only [runAllocOp, getLQSlot_free cpu h]
      refine ⟨by omega, by omega, by omega, by omega⟩
    · simp only [runAllocOp, getLQSlot_full cpu h]
      refine ⟨by omega, by omega, by omega, by omega⟩
  | getSQ =>
    by_cases h : cpu.sqNext < AXP_MBOX_QUEUE_LEN
    · simp only [runAllocOp, getSQSlot_free cpu h]
      refine ⟨by omega, by omega, by omega, by omega⟩
    · simp only [runAllocOp, getSQSlot_full cpu h]
      refine ⟨by omega, by omega, by omega, by omega⟩

/-- Any sequence of allocator calls is monotone and bounded on both
next-indices. -/
theorem runAllocOps_bounds (ops : List AllocOp) :
    ∀ cpu : AXP_21264_CPU,
      cpu.lqNext ≤ (runAllocOps cpu ops).lqNext ∧
      cpu.sqNext ≤ (runAllocOps cpu ops).sqNext ∧
      (cpu.lqNext ≤ AXP_MBOX_QUEUE_LEN →
        (runAllocOps cpu ops).lqNext ≤ AXP_MBOX_QUEUE_LEN) ∧
      (cpu.sqNext ≤ AXP_MBOX_QUEUE_LEN →
        (runAllocOps cpu ops).sqNext ≤ AXP_MBOX_QUEUE_LEN) := by
  induction ops with
  | nil =>
    intro cpu
    simp [runAllocOps]
  | cons op rest ih =>
    intro cpu
    have h1 := runAllocOp_bounds cpu op
    have h2 := ih (runAllocOp cpu op)
    simp only [runAllocOps, List.foldl_cons] at h2 ⊢
    exact ⟨Nat.le_trans h1.1 h2.1, Nat.le_trans h1.2.1 h2.2.1,
           fun h => h2.2.2.1 (h1.2.2.1 h),
           fun h => h2.2.2.2 (h1.2.2.2 h)⟩

/-- Claim C7: AXP_21264_Mbox_Init sets lqNext and sqNext to 0, and under any
sequence of allocator operations between resets both next-indices are
monotonically non-decreasing and never exceed AXP_MBOX_QUEUE_LEN. -/
theorem C7_next_indices_monotone_bounded :
    (∀ cpu : AXP_21264_CPU,
      (AXP_21264_Mbox_Init cpu).2.lqNext = 0 ∧
      (AXP_21264_Mbox_Init cpu).2.sqNext = 0) ∧
    (∀ (cpu : AXP_21264_CPU) (ops : List AllocOp),
      cpu.lqNext ≤ AXP_MBOX_QUEUE_LEN →
      cpu.sqNext ≤ AXP_MBOX_QUEUE_LEN →
      (cpu.lqNext ≤ (runAllocOps cpu ops).lqNext ∧
       (runAllocOps cpu ops).lqNext ≤ AXP_MBOX_QUEUE_LEN ∧
       cpu.sqNext ≤ (runAllocOps cpu ops).sqNext ∧
       (runAllocOps cpu ops).sqNext ≤ AXP_MBOX_QUEUE_LEN)) := by
  constructor
  · intro cpu
    exact ⟨rfl, rfl⟩
  · intro cpu ops h1 h2
    have h := runAllocOps_bounds ops cpu
    exact ⟨h.1, h.2.2.1 h1, h.2.1, h.2.2.2 h2⟩

/-- Witness for C7: a concrete run of three allocations from the reset
state. -/
theorem C7_next_indices_monotone_bounded_witness :
    (cpu0.lqNext ≤ AXP_MBOX_QUEUE_LEN ∧
     cpu0.sqNext ≤ AXP_MBOX_QUEUE_LEN) ∧
    (cpu0.lqNext ≤
       (runAllocOps cpu0
         [AllocOp.getLQ, AllocOp.getSQ, AllocOp.getLQ]).lqNext ∧
     (runAllocOps cpu0
         [AllocOp.getLQ, AllocOp.getSQ, AllocOp.getLQ]).lqNext
       ≤ AXP_MBOX_QUEUE_LEN ∧
     cpu0.sqNext ≤
       (runAllocOps cpu0
         [AllocOp.getLQ, AllocOp.getSQ, AllocOp.getLQ]).sqNext ∧
     (runAllocOps cpu0
         [AllocOp.getLQ, AllocOp.getSQ, AllocOp.getLQ]).sqNext
       ≤ AXP_MBOX_QUEUE_LEN) :=
  ⟨⟨by decide, by decide⟩,
   C7_next_indices_monotone_bounded.2 cpu0
     [AllocOp.getLQ, AllocOp.getSQ, AllocOp.getLQ] (by decide) (by decide)⟩

/-- Claim C8 (code_bug evidence): the Mbox_Init cache loops start at set
index 1, so Dcache set 0 is never initialized.  Starting from a state whose
set 0 holds stale valid Modified lines, Mbox_Init leaves set 0 exactly as it
was (still valid, state not Invalid) while set 1 is properly reset; the
queues and IPRs claimed are nevertheless reset (lqNext = sqNext = 0,
set_en = 3, alt_mode = kernel). -/
theorem C8_init_skips_dcache_set_zero :
    (AXP_21264_Mbox_Init cpuC8).2.dCache.get? 0
      = some [dirtyLine, dirtyLine] ∧
    dirtyLine.valid = true ∧
    dirtyLine.state ≠ CacheLineState.Invalid ∧
    (AXP_21264_Mbox_Init cpuC8).2.dCache.get? 1
      = some [dcacheResetLine, dcacheResetLine] ∧
    (AXP_21264_Mbox_Init cpuC8).2.lqNext = 0 ∧
    (AXP_21264_Mbox_Init cpuC8).2.sqNext = 0 ∧
    (AXP_21264_Mbox_Init cpuC8).2.dcCtl.set_en = 3 ∧
    (AXP_21264_Mbox_Init cpuC8).2.dtbAltMode.alt_mode
      = AXP_MBOX_ALTMODE_KERNEL := by
  refine ⟨rfl, rfl, by decide, rfl, rfl, rfl, rfl, rfl⟩

/-- Claim C9 (code_bug evidence): both store-conditional instructions write
1 or 0 to destv according to lockFlag, always set clearLockPending and move
to WaitingRetirement, and never mutate guest memory: in particular the
claimed store on the success path does not happen (the C assigns the value
to a local variable). -/
theorem C9_store_conditional_no_memory_write
    (cpu : AXP_21264_CPU) (instr : AXP_INSTRUCTION) (mem : Nat -> Nat) :
    ((AXP_STL_C cpu instr mem).2.2 = mem ∧
     (AXP_STL_C cpu instr mem).2.1.destv
       = (if cpu.lockFlag then 1 else 0) ∧
     (AXP_STL_C cpu instr mem).2.1.clearLockPending = true ∧
     (AXP_STL_C cpu instr mem).2.1.state = InstrState.WaitingRetirement ∧
     (AXP_STL_C cpu instr mem).1 = AXP_EXCEPTIONS.NoException) ∧
    ((AXP_STQ_C cpu instr mem).2.2 = mem ∧
     (AXP_STQ_C cpu instr mem).2.1.destv
       = (if cpu.lockFlag then 1 else 0) ∧
     (AXP_STQ_C cpu instr mem).2.1.clearLockPending = true ∧
     (AXP_STQ_C cpu instr mem).2.1.state = InstrState.WaitingRetirement ∧
     (AXP_STQ_C cpu instr mem).1 = AXP_EXCEPTIONS.NoException) := by
  cases hl : cpu.lockFlag <;>
    simp [AXP_STL_C, AXP_STQ_C, hl]

/-- Claim C10: when a queue's next-index equals AXP_MBOX_QUEUE_LEN (queue
full), the allocator returns the sentinel and the whole CPU state, queues
included, is returned unchanged. -/
theorem C10_full_queue_alloc_noop (cpu : AXP_21264_CPU) :
    (cpu.lqNext = AXP_MBOX_QUEUE_LEN →
      AXP_21264_Mbox_GetLQSlot cpu = (AXP_MBOX_QUEUE_LEN, cpu)) ∧
    (cpu.sqNext = AXP_MBOX_QUEUE_LEN →
      AXP_21264_Mbox_GetSQSlot cpu = (AXP_MBOX_QUEUE_LEN, cpu)) := by
  constructor
  · intro h
    exact getLQSlot_full cpu (by omega)
  · intro h
    exact getSQSlot_full cpu (by omega)

/-- Witness for C10 at a concrete full-queue state. -/
theorem C10_full_queue_alloc_noop_witness :
    cpuFull.lqNext = AXP_MBOX_QUEUE_LEN ∧
    cpuFull.sqNext = AXP_MBOX_QUEUE_LEN ∧
    AXP_21264_Mbox_GetLQSlot cpuFull = (AXP_MBOX_QUEUE_LEN, cpuFull) ∧
    AXP_21264_Mbox_GetSQSlot cpuFull = (AXP_MBOX_QUEUE_LEN, cpuFull) :=
  ⟨rfl, rfl, (C10_full_queue_alloc_noop cpuFull).1 rfl,
   (C10_full_queue_alloc_noop cpuFull).2 rfl⟩
